import Mathlib

/-!
Verification of the gorgonia-mps native boundary: an engine-level GPU
context (mps_engine_ctx.h) plus two kernel dispatch entry points,
mpsMatMulFloat32 (mps_matmul.h) and mpsRowSumFloat32 (mps_sum.h).
The repository ships only the C interface headers; the kernel and
lifecycle bodies are modelled from the specification, with float32
buffers embedded as exact rational buffers and GPU dispatch outcomes
made explicit as boolean oracles.
-/

/-- Lifecycle state of one engine context, as the spec's state machine
describes it: `uninit` before any successful create, `live` after a
successful create, `released` after release. -/
inductive CtxState where
  | uninit : CtxState
  | live : CtxState
  | released : CtxState
deriving DecidableEq

/-- Global engine state: the contexts that have been handed out, indexed
by handle number. Models the fact that several independent contexts may
coexist. -/
structure EngineState where
  ctxs : List CtxState
deriving DecidableEq

/-- Modelled from the spec: the body of `MPSEngineCreateContext` is not
in src/ (only its declaration in mps_engine_ctx.h). The spec says it
attempts to bind a capable GPU device and build a command queue,
returning a valid live handle on success and NULL (here `none`) when no
device is available or queue creation fails, with no side effect on
other contexts. `deviceOk` and `queueOk` are oracles for those two
environment-dependent outcomes. -/
def MPSEngineCreateContext (s : EngineState) (deviceOk queueOk : Bool) :
    Option Nat × EngineState :=
  if deviceOk && queueOk then
    (some s.ctxs.length, ⟨s.ctxs ++ [CtxState.live]⟩)
  else
    (none, s)

/-- Modelled from the spec: the body of `MPSEngineReleaseContext` is not
in src/. The C declaration returns void; the spec says release frees the
queue and device bindings of the context. `teardownOk` is an oracle for
whether internal resource teardown hits an error; the void return means
no outcome can be reported either way. -/
def MPSEngineReleaseContext (s : EngineState) (h : Nat) (teardownOk : Bool) :
    Unit × EngineState :=
  ((), ⟨s.ctxs.set h CtxState.released⟩)

/-- The operations that can be applied to a single context handle. -/
inductive EngineOp where
  | create : Bool → EngineOp
  | release : EngineOp
  | dispatch : Bool → EngineOp
deriving DecidableEq

/-- Modelled from the spec: the per-context transition system of section
4 (state machine). `none` means the operation is not valid from that
state. A create carries whether device/queue acquisition succeeded, a
dispatch carries whether the GPU submission succeeded; a failed dispatch
leaves the context live. -/
def ctxStep : CtxState → EngineOp → Option CtxState
  | CtxState.uninit, EngineOp.create true => some CtxState.live
  | CtxState.uninit, EngineOp.create false => some CtxState.uninit
  | CtxState.live, EngineOp.release => some CtxState.released
  | CtxState.live, EngineOp.dispatch _ => some CtxState.live
  | _, _ => none

/-- Entry (i, j) of a row-major matrix stored in a flat buffer with
`cols` columns; out-of-bounds reads default to 0. -/
def matEntry (v : List ℚ) (cols i j : Nat) : ℚ :=
  v.getD (i * cols + j) 0

/-- The m x n row-major product of the m x k matrix in `a` and the
k x n matrix in `b`, as the kernel computes it. -/
def mpsMatMulCompute (a b : List ℚ) (m n k : Nat) : List ℚ :=
  (List.range (m * n)).map fun idx =>
    ∑ t ∈ Finset.range k, matEntry a k (idx / n) t * matEntry b n t (idx % n)

/-- Modelled from the spec: the body of `mpsMatMulFloat32` is not in
src/ (only its declaration in mps_matmul.h). Per the spec it performs
C = A x B for row-major float32 buffers through the given context,
returning 0 on success and a distinct nonzero code on failure, with the
output buffer unspecified on failure (modelled as left unchanged).
Zero-sized dimensions are the spec's degenerate legal no-op case; the
model picks immediate success. Code 1 is a rejected non-live context,
code 2 a failed GPU dispatch (`dispatchOk` oracle). -/
def mpsMatMulFloat32 (ctx : CtxState) (a b c : List ℚ) (m n k : Nat)
    (dispatchOk : Bool) : Int × List ℚ :=
  if ctx ≠ CtxState.live then (1, c)
  else if m = 0 ∨ n = 0 ∨ k = 0 then (0, mpsMatMulCompute a b m n k)
  else if dispatchOk then (0, mpsMatMulCompute a b m n k)
  else (2, c)

/-- The length-rows vector of per-row sums of the row-major rows x cols
matrix in `x`, as the reduction kernel computes it. -/
def mpsRowSumCompute (x : List ℚ) (rows cols : Nat) : List ℚ :=
  (List.range rows).map fun i =>
    ∑ j ∈ Finset.range cols, matEntry x cols i j

/-- Modelled from the spec: the body of `mpsRowSumFloat32` is not in
src/ (only its declaration in mps_sum.h). Per the spec it writes the
per-row sums of X into y through the given context, returning 0 on
success and a distinct nonzero code on failure, with y unspecified on
failure (modelled as left unchanged). Zero-sized dimensions succeed
immediately as the degenerate no-op case. -/
def mpsRowSumFloat32 (ctx : CtxState) (x y : List ℚ) (rows cols : Nat)
    (dispatchOk : Bool) : Int × List ℚ :=
  if ctx ≠ CtxState.live then (1, y)
  else if rows = 0 ∨ cols = 0 then (0, mpsRowSumCompute x rows cols)
  else if dispatchOk then (0, mpsRowSumCompute x rows cols)
  else (2, y)

/-- One matmul call record: its buffers and dimensions. -/
structure MatMulCall where
  a : List ℚ
  b : List ℚ
  c : List ℚ
  m : Nat
  n : Nat
  k : Nat

/-- Issue every call of the batch through one shared context. -/
def runSharedMatMuls (ctx : CtxState) (calls : List MatMulCall) :
    List (Int × List ℚ) :=
  calls.map fun cl => mpsMatMulFloat32 ctx cl.a cl.b cl.c cl.m cl.n cl.k true

/-- The context obtained from a fresh successful create, via the
lifecycle transition system. -/
def freshCtx : CtxState :=
  (ctxStep CtxState.uninit (EngineOp.create true)).getD CtxState.uninit

/-- Issue every call of the batch through its own freshly created
single-use context. -/
def runFreshMatMuls (calls : List MatMulCall) : List (Int × List ℚ) :=
  calls.map fun cl => mpsMatMulFloat32 freshCtx cl.a cl.b cl.c cl.m cl.n cl.k true

/-- The caller-owned memory a matmul call touches: the two input buffers
and the output buffer. -/
structure MatMulMem where
  a : List ℚ
  b : List ℚ
  c : List ℚ
deriving DecidableEq

/-- Modelled from the spec: `mpsMatMulFloat32` viewed as a transformer
on the caller-owned buffers. The spec says the engine only reads the
inputs a and b and only writes the output c within its declared bounds,
so the memory after the call carries a and b through and replaces c with
the call's output buffer. -/
def mpsMatMulFloat32Mem (ctx : CtxState) (mem : MatMulMem) (m n k : Nat)
    (dispatchOk : Bool) : Int × MatMulMem :=
  let r := mpsMatMulFloat32 ctx mem.a mem.b mem.c m n k dispatchOk
  (r.fst, ⟨mem.a, mem.b, r.snd⟩)

/-- The caller-owned memory a row-sum call touches. -/
structure RowSumMem where
  x : List ℚ
  y : List ℚ
deriving DecidableEq

/-- Modelled from the spec: `mpsRowSumFloat32` viewed as a transformer
on the caller-owned buffers, reading x and writing only y. -/
def mpsRowSumFloat32Mem (ctx : CtxState) (mem : RowSumMem) (rows cols : Nat)
    (dispatchOk : Bool) : Int × RowSumMem :=
  let r := mpsRowSumFloat32 ctx mem.x mem.y rows cols dispatchOk
  (r.fst, ⟨mem.x, r.snd⟩)

theorem mpsMatMulCompute_length (a b : List ℚ) (m n k : Nat) :
    (mpsMatMulCompute a b m n k).length = m * n := by
  simp [mpsMatMulCompute]

theorem mpsRowSumCompute_length (x : List ℚ) (rows cols : Nat) :
    (mpsRowSumCompute x rows cols).length = rows := by
  simp [mpsRowSumCompute]

theorem mpsMatMulCompute_getD (a b : List ℚ) (m n k i j : Nat)
    (hi : i < m) (hj : j < n) :
    (mpsMatMulCompute a b m n k).getD (i * n + j) 0 =
      ∑ t ∈ Finset.range k, a.getD (i * k + t) 0 * b.getD (t * n + j) 0 := by
  have hb : i * n + j < m * n := by
    have h1 : i * n + j < (i + 1) * n := by
      rw [Nat.succ_mul]
      exact Nat.add_lt_add_left hj _
    exact Nat.lt_of_lt_of_le h1 (Nat.mul_le_mul_right n hi)
  have hdiv : (i * n + j) / n = i := by
    rw [Nat.add_comm, Nat.mul_comm,
      Nat.add_mul_div_left j i (Nat.lt_of_le_of_lt (Nat.zero_le j) hj),
      Nat.div_eq_of_lt hj, Nat.zero_add]
  have hmod : (i * n + j) % n = j := by
    rw [Nat.add_comm, Nat.mul_comm, Nat.add_mul_mod_self_left,
      Nat.mod_eq_of_lt hj]
  rw [mpsMatMulCompute, List.getD_eq_getElem _ _ (by simpa using hb)]
  simp [hdiv, hmod, matEntry]

theorem mpsRowSumCompute_getD (x : List ℚ) (rows cols i : Nat) (hi : i < rows) :
    (mpsRowSumCompute x rows cols).getD i 0 =
      ∑ j ∈ Finset.range cols, x.getD (i * cols + j) 0 := by
  rw [mpsRowSumCompute, List.getD_eq_getElem _ _ (by simpa using hi)]
  simp [matEntry]

theorem mpsMatMul_success_output (ctx : CtxState) (a b c : List ℚ)
    (m n k : Nat) (ok : Bool)
    (h : (mpsMatMulFloat32 ctx a b c m n k ok).fst = 0) :
    (mpsMatMulFloat32 ctx a b c m n k ok).snd = mpsMatMulCompute a b m n k := by
  unfold mpsMatMulFloat32 at h ⊢
  by_cases h1 : ctx ≠ CtxState.live
  · simp [h1] at h
  · by_cases h2 : m = 0 ∨ n = 0 ∨ k = 0
    · simp [h1, h2]
    · by_cases h3 : ok = true
      · simp [h1, h2, h3]
      · simp [h1, h2, h3] at h

theorem mpsRowSum_success_output (ctx : CtxState) (x y : List ℚ)
    (rows cols : Nat) (ok : Bool)
    (h : (mpsRowSumFloat32 ctx x y rows cols ok).fst = 0) :
    (mpsRowSumFloat32 ctx x y rows cols ok).snd = mpsRowSumCompute x rows cols := by
  unfold mpsRowSumFloat32 at h ⊢
  by_cases h1 : ctx ≠ CtxState.live
  · simp [h1] at h
  · by_cases h2 : rows = 0 ∨ cols = 0
    · simp [h1, h2]
    · by_cases h3 : ok = true
      · simp [h1, h2, h3]
      · simp [h1, h2, h3] at h

theorem mpsMatMul_fst_cases (ctx : CtxState) (a b c : List ℚ)
    (m n k : Nat) (ok : Bool) :
    (mpsMatMulFloat32 ctx a b c m n k ok).fst = 0 ∨
    (mpsMatMulFloat32 ctx a b c m n k ok).fst = 1 ∨
    (mpsMatMulFloat32 ctx a b c m n k ok).fst = 2 := by
  unfold mpsMatMulFloat32
  split_ifs <;> simp

theorem mpsMatMul_snd_length (ctx : CtxState) (a b c : List ℚ)
    (m n k : Nat) (ok : Bool) (hc : c.length = m * n) :
    (mpsMatMulFloat32 ctx a b c m n k ok).snd.length = m * n := by
  unfold mpsMatMulFloat32
  split_ifs <;> simp [mpsMatMulCompute_length, hc]

theorem mpsRowSum_snd_length (ctx : CtxState) (x y : List ℚ)
    (rows cols : Nat) (ok : Bool) (hy : y.length = rows) :
    (mpsRowSumFloat32 ctx x y rows cols ok).snd.length = rows := by
  unfold mpsRowSumFloat32
  split_ifs <;> simp [mpsRowSumCompute_length, hy]

/-- C1: when mpsMatMulFloat32 returns 0, the output buffer has exactly
m * n entries and its row-major entry (i, j) equals the dot product of
row i of the m x k matrix A with column j of the k x n matrix B, for
every valid i and j; in the exact-arithmetic embedding of the float32
buffers the reference product holds with zero tolerance. -/
theorem mpsMatMulFloat32_correct (ctx : CtxState) (a b c : List ℚ)
    (m n k i j : Nat) (ok : Bool) (hi : i < m) (hj : j < n)
    (h0 : (mpsMatMulFloat32 ctx a b c m n k ok).fst = 0) :
    (mpsMatMulFloat32 ctx a b c m n k ok).snd.length = m * n ∧
    (mpsMatMulFloat32 ctx a b c m n k ok).snd.getD (i * n + j) 0 =
      ∑ t ∈ Finset.range k, a.getD (i * k + t) 0 * b.getD (t * n + j) 0 := by
  rw [mpsMatMul_success_output ctx a b c m n k ok h0]
  exact ⟨mpsMatMulCompute_length a b m n k, mpsMatMulCompute_getD a b m n k i j hi hj⟩

/-- Witness for C1 at the spec's concrete scenario: the 2 x 2 product of
A = [[1,2],[3,4]] and B = [[5,6],[7,8]] is [[19,22],[43,50]], and the
per-entry statement instantiated at entry (1,1). -/
theorem mpsMatMulFloat32_correct_witness :
    (mpsMatMulFloat32 CtxState.live [1, 2, 3, 4] [5, 6, 7, 8] [0, 0, 0, 0] 2 2 2 true).snd
      = [19, 22, 43, 50] ∧
    (mpsMatMulFloat32 CtxState.live [1, 2, 3, 4] [5, 6, 7, 8] [0, 0, 0, 0] 2 2 2 true).snd.getD
        (1 * 2 + 1) 0 =
      ∑ t ∈ Finset.range 2,
        ([1, 2, 3, 4] : List ℚ).getD (1 * 2 + t) 0 * ([5, 6, 7, 8] : List ℚ).getD (t * 2 + 1) 0 :=
  ⟨by norm_num [mpsMatMulFloat32, mpsMatMulCompute, matEntry, Finset.sum_range_succ,
      List.range_succ],
   (mpsMatMulFloat32_correct CtxState.live [1, 2, 3, 4] [5, 6, 7, 8] [0, 0, 0, 0]
      2 2 2 1 1 true (by decide) (by decide) (by rfl)).2⟩

/-- C2: when mpsRowSumFloat32 returns 0, the output vector has exactly
`rows` entries and entry i equals the sum of the entries of row i of the
row-major rows x cols matrix X, for every valid i. -/
theorem mpsRowSumFloat32_correct (ctx : CtxState) (x y : List ℚ)
    (rows cols i : Nat) (ok : Bool) (hi : i < rows)
    (h0 : (mpsRowSumFloat32 ctx x y rows cols ok).fst = 0) :
    (mpsRowSumFloat32 ctx x y rows cols ok).snd.length = rows ∧
    (mpsRowSumFloat32 ctx x y rows cols ok).snd.getD i 0 =
      ∑ j ∈ Finset.range cols, x.getD (i * cols + j) 0 := by
  rw [mpsRowSum_success_output ctx x y rows cols ok h0]
  exact ⟨mpsRowSumCompute_length x rows cols, mpsRowSumCompute_getD x rows cols i hi⟩

/-- Witness for C2 at the spec's concrete scenario: the row sums of
X = [[1,2,3],[4,5,6]] are [6, 15], and the per-entry statement
instantiated at row 1. -/
theorem mpsRowSumFloat32_correct_witness :
    (mpsRowSumFloat32 CtxState.live [1, 2, 3, 4, 5, 6] [0, 0] 2 3 true).snd = [6, 15] ∧
    (mpsRowSumFloat32 CtxState.live [1, 2, 3, 4, 5, 6] [0, 0] 2 3 true).snd.getD 1 0 =
      ∑ j ∈ Finset.range 3, ([1, 2, 3, 4, 5, 6] : List ℚ).getD (1 * 3 + j) 0 :=
  ⟨by norm_num [mpsRowSumFloat32, mpsRowSumCompute, matEntry, Finset.sum_range_succ,
      List.range_succ],
   (mpsRowSumFloat32_correct CtxState.live [1, 2, 3, 4, 5, 6] [0, 0] 2 3 1 true
      (by decide) (by rfl)).2⟩

/-- C3 counterexample: with a live context and valid 1 x 1 buffers, a
failed GPU dispatch returns a nonzero code while the untouched output
buffer [1] coincidentally already equals the mathematically correct
product of [1] and [1]; so the claimed equivalence "return is 0 if and
only if c holds the correct product" fails in the only-if direction. -/
theorem mpsMatMulFloat32_iff_counterexample :
    (mpsMatMulFloat32 CtxState.live [1] [1] [1] 1 1 1 false).fst ≠ 0 ∧
    (mpsMatMulFloat32 CtxState.live [1] [1] [1] 1 1 1 false).snd =
      mpsMatMulCompute [1] [1] 1 1 1 := by
  constructor
  · norm_num [mpsMatMulFloat32]
  · norm_num [mpsMatMulFloat32, mpsMatMulCompute, matEntry, Finset.sum_range_succ,
      List.range_succ]

/-- C3 (amended): the return value is 0 only when the output buffer has
been fully populated with the mathematically correct product (a zero
return implies c equals the reference product; the converse need not
hold because on failure the contents of c are unspecified and may
coincide with the product), every other outcome is one of the distinct
nonzero failure codes 1 or 2, and the call is a total function of its
arguments, so no exception or panic crosses the boundary. -/
theorem mpsMatMulFloat32_ret_code (ctx : CtxState) (a b c : List ℚ)
    (m n k : Nat) (ok : Bool) :
    ((mpsMatMulFloat32 ctx a b c m n k ok).fst = 0 →
      (mpsMatMulFloat32 ctx a b c m n k ok).snd = mpsMatMulCompute a b m n k) ∧
    ((mpsMatMulFloat32 ctx a b c m n k ok).fst = 0 ∨
     (mpsMatMulFloat32 ctx a b c m n k ok).fst = 1 ∨
     (mpsMatMulFloat32 ctx a b c m n k ok).fst = 2) :=
  ⟨mpsMatMul_success_output ctx a b c m n k ok,
   mpsMatMul_fst_cases ctx a b c m n k ok⟩

/-- Witness for C3's amended statement: a concrete successful 1 x 1 call
whose zero return forces the output buffer to equal the reference
product. -/
theorem mpsMatMulFloat32_ret_code_witness :
    (mpsMatMulFloat32 CtxState.live [2] [3] [0] 1 1 1 true).snd =
      mpsMatMulCompute [2] [3] 1 1 1 :=
  (mpsMatMulFloat32_ret_code CtxState.live [2] [3] [0] 1 1 1 true).1 (by rfl)

/-- C4: MPSEngineCreateContext either hands out a handle that is live
(never a non-live one) or returns NULL, in which case the engine state
is completely unchanged; in both cases every previously existing context
is untouched, and the call is a total function, so a failing create
cannot crash the host process. -/
theorem MPSEngineCreateContext_spec (s : EngineState) (dOk qOk : Bool) :
    (∀ h, (MPSEngineCreateContext s dOk qOk).fst = some h →
      (MPSEngineCreateContext s dOk qOk).snd.ctxs.getD h CtxState.uninit = CtxState.live) ∧
    ((MPSEngineCreateContext s dOk qOk).fst = none →
      (MPSEngineCreateContext s dOk qOk).snd = s) ∧
    (∀ i, i < s.ctxs.length →
      (MPSEngineCreateContext s dOk qOk).snd.ctxs.getD i CtxState.uninit =
        s.ctxs.getD i CtxState.uninit) := by
  cases dOk <;> cases qOk <;> simp [MPSEngineCreateContext]
  intro i hi
  rw [List.getElem?_append_left hi]

/-- Witness for C4: a successful create on the empty engine state hands
out handle 0 and that handle is live. -/
theorem MPSEngineCreateContext_spec_witness :
    (MPSEngineCreateContext ⟨[]⟩ true true).snd.ctxs.getD 0 CtxState.uninit =
      CtxState.live :=
  (MPSEngineCreateContext_spec ⟨[]⟩ true true).1 0 (by rfl)

/-- C5: the only transitions of the context lifecycle are uninit to live
via a successful create and live to released via release: released is
terminal (no operation is valid from it), no operation other than a
create is valid from uninit (release and dispatch are rejected there),
a failed dispatch maps a live context back to live, and from uninit only
a successful create reaches live. -/
theorem ctxStep_lifecycle :
    (∀ op, ctxStep CtxState.released op = none) ∧
    (ctxStep CtxState.uninit EngineOp.release = none) ∧
    (∀ ok, ctxStep CtxState.uninit (EngineOp.dispatch ok) = none) ∧
    (∀ s op s', ctxStep s op = some s' → s' ≠ s →
      (s = CtxState.uninit ∧ op = EngineOp.create true ∧ s' = CtxState.live) ∨
      (s = CtxState.live ∧ op = EngineOp.release ∧ s' = CtxState.released)) ∧
    (∀ ok, ctxStep CtxState.live (EngineOp.dispatch ok) = some CtxState.live) ∧
    (∀ op s', ctxStep CtxState.uninit op = some s' → s' = CtxState.live →
      op = EngineOp.create true) := by
  refine ⟨?_, ?_, ?_, ?_, ?_, ?_⟩
  · intro op
    cases op with
    | create b => cases b <;> rfl
    | release => rfl
    | dispatch b => rfl
  · rfl
  · intro ok
    cases ok <;> rfl
  · intro s op s' h hne
    cases s <;> cases op <;>
      first
      | (rename_i b; cases b <;> simp_all [ctxStep])
      | simp_all [ctxStep]
  · intro ok
    rfl
  · intro op s' h hl
    cases op with
    | create b => cases b <;> simp_all [ctxStep]
    | release => simp_all [ctxStep]
    | dispatch b => simp_all [ctxStep]

/-- Witness for C5: the state-changing transition out of uninit taken by
a successful create is classified as the uninit-to-live transition. -/
theorem ctxStep_lifecycle_witness :
    (CtxState.uninit = CtxState.uninit ∧ EngineOp.create true = EngineOp.create true ∧
      CtxState.live = CtxState.live) ∨
    (CtxState.uninit = CtxState.live ∧ EngineOp.create true = EngineOp.release ∧
      CtxState.live = CtxState.released) :=
  ctxStep_lifecycle.2.2.2.1 CtxState.uninit (EngineOp.create true) CtxState.live
    (by rfl) (by decide)

/-- C6: on a live context, every degenerate-shape call (a zero dimension
for matmul, a zero dimension for row-sum) returns 0 together with the
appropriately sized no-op result, independently of the dispatch outcome,
so the chosen behavior is the same for every such call and the call is a
total function (never a crash). -/
theorem mps_degenerate_noop (ctx : CtxState) (a b c x y : List ℚ)
    (m n k rows cols : Nat) (ok1 ok2 : Bool) (hc : ctx = CtxState.live)
    (hmn : m = 0 ∨ n = 0 ∨ k = 0) (hrc : rows = 0 ∨ cols = 0) :
    mpsMatMulFloat32 ctx a b c m n k ok1 = (0, mpsMatMulCompute a b m n k) ∧
    (mpsMatMulCompute a b m n k).length = m * n ∧
    mpsRowSumFloat32 ctx x y rows cols ok2 = (0, mpsRowSumCompute x rows cols) ∧
    (mpsRowSumCompute x rows cols).length = rows := by
  subst hc
  refine ⟨?_, mpsMatMulCompute_length a b m n k, ?_,
    mpsRowSumCompute_length x rows cols⟩
  · unfold mpsMatMulFloat32
    rw [if_neg (by simp), if_pos hmn]
  · unfold mpsRowSumFloat32
    rw [if_neg (by simp), if_pos hrc]

/-- Witness for C6: concrete degenerate calls with m = 0 and rows = 0,
issued with a failing dispatch oracle, still succeed with the no-op
result of the right size. -/
theorem mps_degenerate_noop_witness :
    mpsMatMulFloat32 CtxState.live [1] [2] [] 0 1 1 false =
      (0, mpsMatMulCompute [1] [2] 0 1 1) ∧
    (mpsMatMulCompute [1] [2] 0 1 1).length = 0 * 1 ∧
    mpsRowSumFloat32 CtxState.live [3] [] 0 5 false =
      (0, mpsRowSumCompute [3] 0 5) ∧
    (mpsRowSumCompute [3] 0 5).length = 0 :=
  mps_degenerate_noop CtxState.live [1] [2] [] [3] [] 0 1 1 0 5 false false
    rfl (Or.inl rfl) (Or.inl rfl)

/-- C7: a batch of matmul calls issued through one shared live context
produces exactly the results of issuing each call through its own
freshly created single-use context: the kernels keep no state between
calls beyond the context itself. -/
theorem context_reuse_equiv (ctx : CtxState) (calls : List MatMulCall)
    (hc : ctx = CtxState.live) :
    runSharedMatMuls ctx calls = runFreshMatMuls calls := by
  subst hc
  rfl

/-- Witness for C7: a concrete two-call batch of different shapes gives
the same results shared and fresh. -/
theorem context_reuse_equiv_witness :
    runSharedMatMuls CtxState.live
        [⟨[1, 2], [3], [0, 0], 2, 1, 1⟩, ⟨[4], [5], [0], 1, 1, 1⟩] =
      runFreshMatMuls [⟨[1, 2], [3], [0, 0], 2, 1, 1⟩, ⟨[4], [5], [0], 1, 1, 1⟩] :=
  context_reuse_equiv CtxState.live
    [⟨[1, 2], [3], [0, 0], 2, 1, 1⟩, ⟨[4], [5], [0], 1, 1, 1⟩] rfl

/-- C8: two successful runs of the same kernel call with the same
context and inputs produce identical outputs, even when the two runs
start from differently filled output buffers: the kernels are
deterministic functions of their inputs. -/
theorem kernels_deterministic (ctx : CtxState) (a b c1 c2 x y1 y2 : List ℚ)
    (m n k rows cols : Nat) (ok1 ok2 ok3 ok4 : Bool)
    (h1 : (mpsMatMulFloat32 ctx a b c1 m n k ok1).fst = 0)
    (h2 : (mpsMatMulFloat32 ctx a b c2 m n k ok2).fst = 0)
    (h3 : (mpsRowSumFloat32 ctx x y1 rows cols ok3).fst = 0)
    (h4 : (mpsRowSumFloat32 ctx x y2 rows cols ok4).fst = 0) :
    (mpsMatMulFloat32 ctx a b c1 m n k ok1).snd =
      (mpsMatMulFloat32 ctx a b c2 m n k ok2).snd ∧
    (mpsRowSumFloat32 ctx x y1 rows cols ok3).snd =
      (mpsRowSumFloat32 ctx x y2 rows cols ok4).snd := by
  rw [mpsMatMul_success_output ctx a b c1 m n k ok1 h1,
    mpsMatMul_success_output ctx a b c2 m n k ok2 h2,
    mpsRowSum_success_output ctx x y1 rows cols ok3 h3,
    mpsRowSum_success_output ctx x y2 rows cols ok4 h4]
  exact ⟨rfl, rfl⟩

/-- Witness for C8: concrete repeated 1 x 1 calls with differently
pre-filled output buffers give identical outputs. -/
theorem kernels_deterministic_witness :
    (mpsMatMulFloat32 CtxState.live [1] [2] [0] 1 1 1 true).snd =
      (mpsMatMulFloat32 CtxState.live [1] [2] [7] 1 1 1 true).snd ∧
    (mpsRowSumFloat32 CtxState.live [5] [0] 1 1 true).snd =
      (mpsRowSumFloat32 CtxState.live [5] [9] 1 1 true).snd :=
  kernels_deterministic CtxState.live [1] [2] [0] [7] [5] [0] [9] 1 1 1 1 1
    true true true true (by rfl) (by rfl) (by rfl) (by rfl)

/-- C9: a kernel call leaves the input buffers exactly as they were and
writes an output buffer of exactly the declared size (m * n entries for
matmul, rows entries for row-sum), whether it succeeds or fails; the
caller-owned memory never changes hands. -/
theorem kernel_frame (ctx : CtxState) (mem1 : MatMulMem) (mem2 : RowSumMem)
    (m n k rows cols : Nat) (ok1 ok2 : Bool)
    (hc : mem1.c.length = m * n) (hy : mem2.y.length = rows) :
    (mpsMatMulFloat32Mem ctx mem1 m n k ok1).snd.a = mem1.a ∧
    (mpsMatMulFloat32Mem ctx mem1 m n k ok1).snd.b = mem1.b ∧
    (mpsMatMulFloat32Mem ctx mem1 m n k ok1).snd.c.length = m * n ∧
    (mpsRowSumFloat32Mem ctx mem2 rows cols ok2).snd.x = mem2.x ∧
    (mpsRowSumFloat32Mem ctx mem2 rows cols ok2).snd.y.length = rows :=
  ⟨rfl, rfl, mpsMatMul_snd_length ctx mem1.a mem1.b mem1.c m n k ok1 hc,
   rfl, mpsRowSum_snd_length ctx mem2.x mem2.y rows cols ok2 hy⟩

/-- Witness for C9: a concrete failing matmul call and a concrete
successful row-sum call both preserve their inputs and keep the output
buffer at its declared size. -/
theorem kernel_frame_witness :
    (mpsMatMulFloat32Mem CtxState.live ⟨[1], [2], [0]⟩ 1 1 1 false).snd.a = [1] ∧
    (mpsMatMulFloat32Mem CtxState.live ⟨[1], [2], [0]⟩ 1 1 1 false).snd.b = [2] ∧
    (mpsMatMulFloat32Mem CtxState.live ⟨[1], [2], [0]⟩ 1 1 1 false).snd.c.length = 1 * 1 ∧
    (mpsRowSumFloat32Mem CtxState.live ⟨[3], [0]⟩ 1 1 true).snd.x = [3] ∧
    (mpsRowSumFloat32Mem CtxState.live ⟨[3], [0]⟩ 1 1 true).snd.y.length = 1 :=
  kernel_frame CtxState.live ⟨[1], [2], [0]⟩ ⟨[3], [0]⟩ 1 1 1 1 1 false true
    (by rfl) (by rfl)

/-- C10: MPSEngineReleaseContext returns the unit value whatever handle
it is given and whatever happens during internal teardown, and its whole
observable behavior is independent of the teardown outcome, so a release
can never signal failure to the caller. -/
theorem release_void_unobservable (s : EngineState) (h : Nat) (tOk tOk' : Bool) :
    (MPSEngineReleaseContext s h tOk).fst = () ∧
    MPSEngineReleaseContext s h tOk = MPSEngineReleaseContext s h tOk' :=
  ⟨rfl, rfl⟩
